import Mathlib

/-!
Verification of the industrial-process-control simulator's engine against
its specification.  Numeric values are embedded as rationals (the source's
arithmetic on JavaScript numbers, with exact decimal literals); the
unseeded uniform generator `Math.random()` is embedded as an explicit
parameter `r` ranging over `[0, 1)`.
-/

namespace ProcessControl

/-- One sample of the single-parameter history
(`interface ProcessData` in process-control-dashboard.tsx). -/
structure ProcessData where
  timestamp : Int
  pv : Rat
  sp : Rat
  aiSp : Rat
deriving DecidableEq, Repr

/-- Next AI setpoint, from the tick handler of `ProcessControlDashboard`:
`aiEnabled ? Math.max(spLowLimit[0], Math.min(spHighLimit[0], currentSP + (Math.random() - 0.5) * 2)) : manualSP`. -/
def aiSp (aiEnabled : Bool) (currentSP manualSP spLowLimit spHighLimit r : Rat) : Rat :=
  if aiEnabled then
    max spLowLimit (min spHighLimit (currentSP + (r - 0.5) * 2))
  else
    manualSP

/-- Next process variable, from the tick handler of `ProcessControlDashboard`:
`const error = aiSp - currentPV; const newPV = currentPV + error * 0.1 + (Math.random() - 0.5) * 1.5`. -/
def newPV (currentPV aiSpVal r : Rat) : Rat :=
  currentPV + (aiSpVal - currentPV) * 0.1 + (r - 0.5) * 1.5

/-- JavaScript `l.slice(-n)`: the last `min n l.length` elements of `l`. -/
def jsSliceLast (n : Nat) (l : List α) : List α :=
  l.drop (l.length - n)

/-- The sliding-window history append of the dashboards:
`[...prev, point].slice(-50)`. -/
def appendCapped (prev : List α) (point : α) : List α :=
  jsSliceLast 50 (prev ++ [point])

/-- Mutable state of the single-parameter engine: the `useState` cells
`currentPV`, `currentSP`, `processData` of `ProcessControlDashboard`
that the tick handler writes. -/
structure SPState where
  currentPV : Rat
  currentSP : Rat
  processData : List ProcessData
deriving DecidableEq, Repr

/-- Values the tick handler reads that are set outside it: the user-edited
inputs (`aiEnabled`, `manualSP`, the bound sliders) plus the two
`Math.random()` draws and `Date.now()` of this tick. -/
structure TickInputs where
  aiEnabled : Bool
  manualSP : Rat
  spLowLimit : Rat
  spHighLimit : Rat
  rSp : Rat
  rPv : Rat
  now : Int
deriving DecidableEq, Repr

/-- Domain of the tick inputs: `Math.random()` draws lie in `[0, 1)` and the
bounds satisfy the data-model invariant `lowLimit < highLimit` (the UI
enforces a 10-unit gap between the limit sliders). -/
def ValidInputs (inp : TickInputs) : Prop :=
  0 ≤ inp.rSp ∧ inp.rSp < 1 ∧ 0 ≤ inp.rPv ∧ inp.rPv < 1 ∧
    inp.spLowLimit < inp.spHighLimit

instance (inp : TickInputs) : Decidable (ValidInputs inp) := by
  unfold ValidInputs; infer_instance

/-- One firing of the `setInterval` handler in `ProcessControlDashboard`:
compute `aiSp`, compute `newPV`, store both, append the new sample to the
sliding-window history. -/
def tick (s : SPState) (inp : TickInputs) : SPState :=
  let a := aiSp inp.aiEnabled s.currentSP inp.manualSP inp.spLowLimit inp.spHighLimit inp.rSp
  let p := newPV s.currentPV a inp.rPv
  { currentPV := p
    currentSP := a
    processData := appendCapped s.processData ⟨inp.now, p, a, a⟩ }

/-- Initial state of `ProcessControlDashboard`:
`useState(45.2)`, `useState(50.0)`, `useState<ProcessData[]>([])`. -/
def initState : SPState :=
  { currentPV := 45.2, currentSP := 50.0, processData := [] }

/-- States of the single-parameter engine reachable from the initial state
by ticks with valid inputs. -/
inductive Reachable : SPState → Prop where
  | init : Reachable initState
  | tick (s : SPState) (inp : TickInputs) :
      Reachable s → ValidInputs inp → Reachable (tick s inp)

/- ### Claim theorems -/

/-- C1: with AI enabled and `spLowLimit < spHighLimit`, the returned
setpoint is `clamp(currentSP + u, low, high)` for the perturbation
`u = (r - 0.5) * 2 ∈ [-1, 1]`, hence lies in `[low, high]`. -/
theorem aiSp_enabled_clamped
    (currentSP manualSP low high r : Rat)
    (hlh : low < high) (hr0 : 0 ≤ r) (hr1 : r ≤ 1) :
    aiSp true currentSP manualSP low high r
        = max low (min high (currentSP + (r - 0.5) * 2)) ∧
      -1 ≤ (r - 0.5) * 2 ∧ (r - 0.5) * 2 ≤ 1 ∧
      low ≤ aiSp true currentSP manualSP low high r ∧
      aiSp true currentSP manualSP low high r ≤ high := by
  refine ⟨rfl, by linarith, by linarith, ?_, ?_⟩
  · exact le_max_left _ _
  · exact max_le hlh.le (min_le_left _ _)

/-- Witness for C1 at `currentSP = 50`, bounds `[20, 80]`, `r = 1`. -/
theorem aiSp_enabled_clamped_witness :
    aiSp true 50 50 20 80 1 = max 20 (min 80 (50 + ((1:Rat) - 0.5) * 2)) ∧
      -1 ≤ ((1:Rat) - 0.5) * 2 ∧ ((1:Rat) - 0.5) * 2 ≤ 1 ∧
      20 ≤ aiSp true 50 50 20 80 1 ∧ aiSp true 50 50 20 80 1 ≤ 80 :=
  aiSp_enabled_clamped 50 50 20 80 1 (by norm_num) (by norm_num) (by norm_num)

/-- C4: with AI disabled the update returns exactly the supplied manual
setpoint with no clamping; concretely, `manualSP = 100` with bounds
`[20, 80]` is returned verbatim even though `100 > 80`. -/
theorem aiSp_disabled_manual
    (currentSP manualSP low high r : Rat) :
    aiSp false currentSP manualSP low high r = manualSP ∧
      aiSp false 50 100 20 80 r = 100 ∧ ¬ ((100 : Rat) ≤ 80) := by
  refine ⟨rfl, rfl, by norm_num⟩

/-- C2: one tick of the PV update gives
`pv + (aiSp - pv) * 0.1 + n` with noise `n = (r - 0.5) * 1.5 ∈ [-0.75, 0.75]`;
at `pv = 45.2`, `aiSp = 50.0` the next PV lies in
`[45.68 - 0.75, 45.68 + 0.75]`. -/
theorem newPV_lag_plus_noise
    (currentPV aiSpVal r : Rat) (hr0 : 0 ≤ r) (hr1 : r ≤ 1) :
    newPV currentPV aiSpVal r
        = currentPV + (aiSpVal - currentPV) * 0.1 + (r - 0.5) * 1.5 ∧
      -0.75 ≤ (r - 0.5) * 1.5 ∧ (r - 0.5) * 1.5 ≤ 0.75 ∧
      (currentPV = 45.2 → aiSpVal = 50.0 →
        45.68 - 0.75 ≤ newPV currentPV aiSpVal r ∧
          newPV currentPV aiSpVal r ≤ 45.68 + 0.75) := by
  refine ⟨rfl, by linarith, by linarith, ?_⟩
  rintro rfl rfl
  unfold newPV
  constructor <;> nlinarith

/-- Witness for C2 at `pv = 45.2`, `aiSp = 50.0`, `r = 0`. -/
theorem newPV_lag_plus_noise_witness :
    newPV 45.2 50.0 0
        = 45.2 + ((50.0:Rat) - 45.2) * 0.1 + ((0:Rat) - 0.5) * 1.5 ∧
      -0.75 ≤ ((0:Rat) - 0.5) * 1.5 ∧ ((0:Rat) - 0.5) * 1.5 ≤ 0.75 ∧
      45.68 - 0.75 ≤ newPV 45.2 50.0 0 ∧ newPV 45.2 50.0 0 ≤ 45.68 + 0.75 := by
  have h := newPV_lag_plus_noise 45.2 50.0 0 (by norm_num) (by norm_num)
  exact ⟨h.1, h.2.1, h.2.2.1, (h.2.2.2 rfl rfl).1, (h.2.2.2 rfl rfl).2⟩

/-- C3: the sliding-window append `[...prev, point].slice(-50)` keeps the
buffer at most 50 long with the new sample last, and on a full buffer of
50 it drops exactly the oldest entry. -/
theorem appendCapped_window {α : Type} (l : List α) (x : α) :
    (appendCapped l x).length = min (l.length + 1) 50 ∧
      (appendCapped l x).length ≤ 50 ∧
      (appendCapped l x).getLast? = some x ∧
      (l.length = 50 → appendCapped l x = l.tail ++ [x]) := by
  have hlen : (appendCapped l x).length = min (l.length + 1) 50 := by
    simp only [appendCapped, jsSliceLast, List.length_drop, List.length_append,
      List.length_singleton]
    omega
  refine ⟨hlen, by omega, ?_, ?_⟩
  · have hk : l.length + 1 - 50 ≤ l.length := by omega
    rw [appendCapped, jsSliceLast, List.length_append, List.length_singleton,
      List.drop_append_of_le_length hk, List.getLast?_concat]
  · intro h50
    rw [appendCapped, jsSliceLast, List.length_append, List.length_singleton, h50]
    have h1 : (1 : Nat) ≤ l.length := by omega
    rw [show (50 + 1 - 50 : Nat) = 1 from rfl,
      List.drop_append_of_le_length (h50 ▸ h1), List.drop_one]

/-- Witness for C3 on a full buffer of 50 zeros with `1` appended. -/
theorem appendCapped_window_witness :
    (appendCapped (List.replicate 50 (0 : Nat)) 1).length
        = min ((List.replicate 50 (0 : Nat)).length + 1) 50 ∧
      (appendCapped (List.replicate 50 (0 : Nat)) 1).length ≤ 50 ∧
      (appendCapped (List.replicate 50 (0 : Nat)) 1).getLast? = some 1 ∧
      appendCapped (List.replicate 50 (0 : Nat)) 1
        = (List.replicate 50 (0 : Nat)).tail ++ [1] := by
  have h := appendCapped_window (List.replicate 50 (0 : Nat)) 1
  exact ⟨h.1, h.2.1, h.2.2.1, h.2.2.2 (by simp)⟩

/-- The tick inputs of the C5 counterexample: AI disabled, manual setpoint
100, bounds `[20, 80]`. -/
def overrideInput : TickInputs :=
  { aiEnabled := false, manualSP := 100, spLowLimit := 20, spHighLimit := 80,
    rSp := 0, rPv := 0, now := 0 }

/-- C5 counterexample: the state reached from the initial state by one valid
tick with AI disabled and `manualSP = 100` carries `currentSP = 100`,
outside the supplied bounds `[20, 80]` — so `aiSp` is not clamped in every
reachable state. -/
theorem aiSp_not_clamped_everywhere :
    Reachable (tick initState overrideInput) ∧ ValidInputs overrideInput ∧
      (tick initState overrideInput).currentSP = 100 ∧
      overrideInput.spLowLimit = 20 ∧ overrideInput.spHighLimit = 80 ∧
      ¬ ((tick initState overrideInput).currentSP ≤ overrideInput.spHighLimit) := by
  refine ⟨Reachable.tick _ _ Reachable.init (by decide), by decide, rfl, rfl, rfl, ?_⟩
  norm_num [tick, aiSp, overrideInput]

/-- C5 amended: in every state reached by a valid tick whose inputs have AI
enabled, `currentSP` (the stored `aiSp`) lies within that tick's bounds
`[spLowLimit, spHighLimit]`; with AI disabled the manual setpoint is stored
verbatim and may lie outside. -/
theorem aiSp_clamped_when_enabled (s : SPState) (inp : TickInputs)
    (_hs : Reachable s) (hv : ValidInputs inp) (hai : inp.aiEnabled = true) :
    inp.spLowLimit ≤ (tick s inp).currentSP ∧
      (tick s inp).currentSP ≤ inp.spHighLimit := by
  have hlh : inp.spLowLimit < inp.spHighLimit := hv.2.2.2.2
  have h : (tick s inp).currentSP
      = aiSp inp.aiEnabled s.currentSP inp.manualSP inp.spLowLimit
          inp.spHighLimit inp.rSp := rfl
  rw [h, hai]
  exact ⟨le_max_left _ _, max_le hlh.le (min_le_left _ _)⟩

/-- Witness for the amended C5 at the initial state with AI enabled and
bounds `[20, 80]`. -/
theorem aiSp_clamped_when_enabled_witness :
    (20 : Rat) ≤ (tick initState
        { aiEnabled := true, manualSP := 50, spLowLimit := 20,
          spHighLimit := 80, rSp := 0, rPv := 0, now := 0 }).currentSP ∧
      (tick initState
        { aiEnabled := true, manualSP := 50, spLowLimit := 20,
          spHighLimit := 80, rSp := 0, rPv := 0, now := 0 }).currentSP ≤ 80 :=
  aiSp_clamped_when_enabled initState _ Reachable.init (by decide) rfl

/-- Action classification of `ConvergenceIndicator.getActionText`
(convergence-indicator.tsx). -/
def getActionText (error : Rat) (isConverged : Bool) : String :=
  if isConverged then "System Converged"
  else if error > 2 then "Increase Actuator"
  else if error < -2 then "Decrease Actuator"
  else "Fine Tuning"

/-- C6: the classifier is a pure function of `(error, isConverged)`:
converged overrides everything; otherwise the action is Increase exactly
when `error > 2`, Decrease exactly when `error < -2`, FineTune otherwise;
at `error = 3.5` not converged it is Increase. -/
theorem getActionText_classification (error : Rat) :
    getActionText error true = "System Converged" ∧
      (getActionText error false = "Increase Actuator" ↔ 2 < error) ∧
      (getActionText error false = "Decrease Actuator" ↔ error < -2) ∧
      (getActionText error false = "Fine Tuning" ↔
        (-2 ≤ error ∧ error ≤ 2)) ∧
      getActionText 3.5 false = "Increase Actuator" := by
  unfold getActionText
  refine ⟨rfl, ?_, ?_, ?_, by norm_num⟩ <;>
    · split_ifs with h1 h2 <;> simp_all <;> linarith

/-- A JavaScript number as produced by the UI's arithmetic: finite,
signed infinity, or NaN.  Used to embed the unguarded divisions of
`ProcessParameterCard` and `FractionMainDisplay`. -/
inductive JsNum where
  | num : Rat → JsNum
  | posInf : JsNum
  | negInf : JsNum
  | nan : JsNum
deriving DecidableEq, Repr

/-- JavaScript division `a / b` on finite operands: division by zero gives
a signed infinity (NaN when the dividend is also zero). -/
def jsDiv (a b : Rat) : JsNum :=
  if b = 0 then
    if a = 0 then .nan else if 0 < a then .posInf else .negInf
  else
    .num (a / b)

/-- JavaScript `Math.abs` extended to infinities and NaN. -/
def jsAbs : JsNum → JsNum
  | .num q => .num |q|
  | .posInf => .posInf
  | .negInf => .posInf
  | .nan => .nan

/-- Multiplication by the finite positive literal `100`. -/
def jsMul100 : JsNum → JsNum
  | .num q => .num (q * 100)
  | .posInf => .posInf
  | .negInf => .negInf
  | .nan => .nan

/-- True exactly on finite values. -/
def JsNum.isFinite : JsNum → Bool
  | .num _ => true
  | _ => false

/-- Deviation percentage of `ProcessParameterCard`
(process-parameter-card.tsx):
`const error = parameter.sp - parameter.pv;
const errorPercentage = Math.abs(error / parameter.sp) * 100`. -/
def errorPercentage (sp pv : Rat) : JsNum :=
  jsMul100 (jsAbs (jsDiv (sp - pv) sp))

/-- Deviation percentage of `FractionMainDisplay`
(fraction-main-display.tsx):
`const error = targetFraction - currentFraction;
const errorPercentage = Math.abs(error / targetFraction) * 100`. -/
def fractionErrorPercentage (targetFraction currentFraction : Rat) : JsNum :=
  jsMul100 (jsAbs (jsDiv (targetFraction - currentFraction) targetFraction))

/-- C7 (refuting the guard): with a zero divisor both deviation
computations divide unguarded and return a non-finite value — `Infinity`
at `sp = 0, pv = 5` and at `target = 0, current = 78.5` — not a sentinel. -/
theorem errorPercentage_unguarded_at_zero :
    errorPercentage 0 5 = JsNum.posInf ∧
      (errorPercentage 0 5).isFinite = false ∧
      fractionErrorPercentage 0 78.5 = JsNum.posInf ∧
      (fractionErrorPercentage 0 78.5).isFinite = false := by
  refine ⟨?_, ?_, ?_, ?_⟩ <;>
    norm_num [errorPercentage, fractionErrorPercentage, jsDiv, jsAbs,
      jsMul100, JsNum.isFinite]

/-- One trend point of a `ProcessParameter`
(`Array<{ timestamp; pv; sp }>`). -/
structure TrendPoint where
  timestamp : Int
  pv : Rat
  sp : Rat
deriving DecidableEq, Repr

/-- The `interface ProcessParameter` of the multi-parameter dashboard. -/
structure ProcessParameter where
  id : String
  name : String
  unit : String
  pv : Rat
  sp : Rat
  aiSp : Rat
  lowLimit : Rat
  highLimit : Rat
  trend : List TrendPoint
  color : String
  icon : String
deriving DecidableEq, Repr

/-- JavaScript `x || fallback` applied to an optional-chaining result
(`parameters[i]?.pv || fallback`): `undefined`, and the falsy number `0`,
both select the fallback. -/
def jsOrDefault (x : Option Rat) (fallback : Rat) : Rat :=
  match x with
  | none => fallback
  | some v => if v = 0 then fallback else v

/-- Ore influence term of the fraction aggregation
(multi-parameter-control-dashboard.tsx):
`const oreInfluence = ((parameters[0]?.pv || 125) / 130) * 20`. -/
def oreInfluence (parameters : List ProcessParameter) : Rat :=
  jsOrDefault ((parameters.get? 0).map (fun p => p.pv)) 125 / 130 * 20

/-- Water influence term:
`const waterInfluence = ((parameters[1]?.pv || 45) / 48) * 15`. -/
def waterInfluence (parameters : List ProcessParameter) : Rat :=
  jsOrDefault ((parameters.get? 1).map (fun p => p.pv)) 45 / 48 * 15

/-- Fraction aggregation:
`const calculatedFraction = oreInfluence + waterInfluence + powerInfluence
+ densityInfluence + noise`.  The power and density influence terms are
not shown in the source excerpt and are taken as arguments. -/
def calculatedFraction (parameters : List ProcessParameter)
    (powerInfluence densityInfluence noise : Rat) : Rat :=
  oreInfluence parameters + waterInfluence parameters
    + powerInfluence + densityInfluence + noise

/-- C8: when a referenced parameter is absent from the array, its hardcoded
fallback PV (125 for ore, 45 for water) is substituted into the influence
term, and the fraction is still the total sum of the influence terms plus
noise — the tick does not fail. -/
theorem fraction_fallback_on_missing (parameters : List ProcessParameter)
    (powerInfluence densityInfluence noise : Rat) :
    (parameters.get? 0 = none → oreInfluence parameters = 125 / 130 * 20) ∧
      (parameters.get? 1 = none → waterInfluence parameters = 45 / 48 * 15) ∧
      calculatedFraction parameters powerInfluence densityInfluence noise
        = oreInfluence parameters + waterInfluence parameters
            + powerInfluence + densityInfluence + noise := by
  refine ⟨?_, ?_, rfl⟩
  · intro h; rw [oreInfluence, h]; rfl
  · intro h; rw [waterInfluence, h]; rfl

/-- Witness for C8 on the empty parameter array. -/
theorem fraction_fallback_on_missing_witness :
    oreInfluence [] = 125 / 130 * 20 ∧
      waterInfluence [] = 45 / 48 * 15 ∧
      calculatedFraction [] 0 0 0
        = oreInfluence [] + waterInfluence [] + 0 + 0 + 0 :=
  ⟨(fraction_fallback_on_missing [] 0 0 0).1 rfl,
    (fraction_fallback_on_missing [] 0 0 0).2.1 rfl,
    (fraction_fallback_on_missing [] 0 0 0).2.2⟩

/-- Scheduler mode of the spec's state machine: no timer armed, or timer
armed. -/
inductive SchedMode where
  | idle
  | running
deriving DecidableEq, Repr

/-- Scheduler state: the mode and the engine state the armed timer's
handler mutates. -/
structure SchedState where
  mode : SchedMode
  engine : SPState
deriving DecidableEq, Repr

/-- Scheduler events: `start()` (arm the interval), `stop()` (cancel it,
`clearInterval`), and a timer firing with that tick's inputs. -/
inductive SchedEvent where
  | start
  | stop
  | tickFire (inp : TickInputs)

/-- Modelled from the spec: the scheduler state machine of §4.4 over the
dashboard's `setInterval`/`clearInterval` pair, whose arming and
cancellation semantics live in the browser runtime, not in the repository
sources.  `start` arms the timer only when idle (no double-arming), `stop`
cancels it (idempotently, as `clearInterval` is), and a timer firing runs
one engine tick only while armed — a fully cancelled timer never fires. -/
def schedStep (s : SchedState) : SchedEvent → SchedState
  | .start =>
    match s.mode with
    | .running => s
    | .idle => { s with mode := .running }
  | .stop => { s with mode := .idle }
  | .tickFire inp =>
    match s.mode with
    | .running => { s with engine := tick s.engine inp }
    | .idle => s

/-- A sequence of timer firings applied in order. -/
def runTicks (s : SchedState) (inps : List TickInputs) : SchedState :=
  inps.foldl (fun st i => schedStep st (.tickFire i)) s

theorem runTicks_idle_noop (e : SPState) (inps : List TickInputs) :
    runTicks ⟨.idle, e⟩ inps = ⟨.idle, e⟩ := by
  induction inps with
  | nil => rfl
  | cons i is ih => exact ih

/-- C9: `stop()` is idempotent, leaves the engine state untouched, and
after it no timer firing mutates anything until the next `start()`;
`start()` while already running is a no-op. -/
theorem scheduler_stop_start (s : SchedState) (e : SPState)
    (inps : List TickInputs) :
    schedStep (schedStep s .stop) .stop = schedStep s .stop ∧
      (schedStep s .stop).engine = s.engine ∧
      (schedStep s .stop).mode = .idle ∧
      runTicks (schedStep s .stop) inps = schedStep s .stop ∧
      schedStep ⟨.running, e⟩ .start = ⟨.running, e⟩ := by
  exact ⟨rfl, rfl, rfl, runTicks_idle_noop s.engine inps, rfl⟩

/-- Value handed to `onTargetChange` by the target-fraction input of
`FractionMainDisplay`:
`onChange={(e) => onTargetChange(Number.parseFloat(e.target.value) || 0)}`.
The `parseFloat` result is embedded as `Option Rat`, `none` standing for
the NaN returned on a string with no parsable numeric prefix. -/
def targetChangeValue (parsed : Option Rat) : Rat :=
  jsOrDefault parsed 0

/-- C10: when `parseFloat` yields NaN the callback receives `0` — the
unparsable input is coerced, not rejected, and `0` is below the input
field's declared minimum of 70. -/
theorem targetChange_nan_coerced_to_zero (parsed : Option Rat)
    (h : parsed = none) :
    targetChangeValue parsed = 0 ∧
      ¬ ((70 : Rat) ≤ targetChangeValue parsed) := by
  subst h
  exact ⟨rfl, by norm_num [targetChangeValue, jsOrDefault]⟩

/-- Witness for C10 at the NaN parse result. -/
theorem targetChange_nan_coerced_to_zero_witness :
    targetChangeValue none = 0 ∧ ¬ ((70 : Rat) ≤ targetChangeValue none) :=
  targetChange_nan_coerced_to_zero none rfl

end ProcessControl
